import Mathlib

/-!
Verification of the Loopring ring-settlement circuit (src/circuit/Circuit.h)
against its natural-language specification.

The circuit is a rank-1 constraint system over the scalar field of alt_bn128
(the curve named in Circuit.h).  We shallowly embed the constraint system:
each gadget's `generate_r1cs_constraints` becomes a `Prop` over a witness
structure whose fields are the gadget's protoboard variables, and each output
wire that is a deterministic function of other wires becomes a Lean function.

External library primitives (ethsnarks / libsnark gadgets included from
outside this repository: LongsightL compression, the Merkle path gadgets,
SHA-256, EdDSA verification, the 128-bit comparison gadget, the sub-add
gadget and the dual-variable bit-decomposition gadget) are modelled from the
specification's description of their contracts and kept abstract where the
spec keeps them abstract (a `Params` record of compression / hash / signature
primitives).  A dual variable constrained with `generate_r1cs_constraints(true)`
is represented by its packed field value together with the range fact
`val < 2 ^ n`; its bit wires are then the canonical `bitsOf n` decomposition,
which is exact for widths below the field size.  The four 256-bit root /
hash dual variables at the circuit top are wider than the field, so their
bit wires are carried explicitly as `List Bool`.
-/

/-- Order of the scalar field of alt_bn128, the field the witness lives in
(Circuit.h line 794 instantiates `libff::alt_bn128_r_limbs`). -/
def p : ℕ := 21888242871839275222246405745257275088548364400416034343698204186575808495617

/-- The circuit's witness field. -/
abbrev F := ZMod p

/-- Least-significant-bit-first decomposition of a field element into `n`
bits, as produced by `fill_with_bits_of_field_element` /
`dual_variable_gadget` for values that fit in `n` bits. -/
def bitsOf (n : ℕ) (v : F) : List Bool :=
  (List.range n).map (fun i => v.val.testBit i)

/-- Recombination of a least-significant-bit-first bit list into a field
element (the packing constraint of `dual_variable_gadget`). -/
def packBits (bs : List Bool) : F :=
  bs.foldr (fun b acc => acc * 2 + (if b then 1 else 0)) 0

/-- Translation of `flattenReverse` (Circuit.h lines 26-45): each chunk's
variables are emitted from the last index down to the first, and the chunks
are concatenated in order. -/
def flattenReverse {α : Type} (l : List (List α)) : List α :=
  l.foldl (fun acc s => acc ++ s.reverse) []

/-- The primitives the circuit composes but which live outside this
repository (ethsnarks/libsnark): the LongsightL leaf compressors of arities
2 and 4, the per-level Merkle compression (level argument selects the IV of
`merkle_tree_IVs`), pure-EdDSA verification (arguments: public-key x, y,
R.x, R.y, the s bits and the message bits), and SHA-256 over a bit stream.
The tree depths `TREE_DEPTH_FILLED` / `TREE_DEPTH_ACCOUNTS` come from
Constants.h, which is not part of the sources; all results below hold for
every choice of depth. -/
structure Params where
  depthFilled : ℕ
  depthAccounts : ℕ
  H2 : F → F → F
  H4 : F → F → F → F → F
  node : ℕ → F → F → F
  eddsa : F → F → F → F → List Bool → List Bool → Prop
  sha256 : List Bool → List Bool

/-- Wires of `LeqGadget` (Circuit.h lines 47-84). -/
structure LeqW where
  lt : F
  leq : F

/-- Constraints of `LeqGadget::generate_r1cs_constraints` (Circuit.h lines
79-83).  The inner 128-bit `comparison_gadget` is libsnark library code;
modelled from the spec (§4.2): it binds `lt`/`leq` to the standard
comparison encoding of the operands' integer values.  On top of it the
gadget itself adds the constraint `leq = 1`, i.e. it asserts `A ≤ B`. -/
def leqConstraints (w : LeqW) (A B : F) : Prop :=
  w.lt = (if A.val < B.val then (1 : F) else 0) ∧
  w.leq = (if A.val ≤ B.val then (1 : F) else 0) ∧
  w.leq = 1

/-- Witness assignment of `LeqGadget` (comparison gadget semantics). -/
def leqWitness (A B : F) : LeqW :=
  ⟨if A.val < B.val then (1 : F) else 0, if A.val ≤ B.val then (1 : F) else 0⟩

/-- Constraints of `RateCheckerGadget::generate_r1cs_constraints`
(Circuit.h lines 121-125): `amountS * fillB = invariant` and
`amountB * fillS = invariant`, with `invariant` an auxiliary witness
variable. -/
def rateCheckerConstraints (fillS fillB amountS amountB invariant : F) : Prop :=
  amountS * fillB = invariant ∧ amountB * fillS = invariant

/-- Wires of `OrderGadget` (Circuit.h lines 128-244).  Each dual variable is
represented by its packed value; `sigS` is the free bit array `sig_s`. -/
structure OrderW where
  dexID : F
  orderID : F
  accountS : F
  accountB : F
  accountF : F
  amountS : F
  amountB : F
  amountF : F
  walletF : F
  padding : F
  tokenS : F
  tokenB : F
  tokenF : F
  pubKeyX : F
  pubKeyY : F
  sigRX : F
  sigRY : F
  sigS : List Bool

/-- The signed message `sig_m` of an order (Circuit.h line 181): the
concatenation of the bit wires of dexID, orderID, accountS, accountB,
accountF, amountS, amountB, amountF, in that order.  Under the dual-variable
constraints these bit wires are the `bitsOf` decompositions of the packed
values.  Neither `walletF` nor the token identifiers appear. -/
def sigMessage (o : OrderW) : List Bool :=
  bitsOf 16 o.dexID ++ bitsOf 4 o.orderID ++ bitsOf 24 o.accountS ++
    bitsOf 24 o.accountB ++ bitsOf 24 o.accountF ++ bitsOf 96 o.amountS ++
    bitsOf 96 o.amountB ++ bitsOf 96 o.amountF

/-- Constraints of `OrderGadget::generate_r1cs_constraints` (Circuit.h lines
228-243): bit-decomposition range constraints for the nine dual variables
whose `generate_r1cs_constraints(true)` is invoked (dexID, orderID, the
three accounts, the three amounts and padding — the call for `walletF` on
line 238 is commented out), followed by the EdDSA signature verification
over `sig_m`.  Token variables carry no order-level constraint. -/
def orderConstraints (P : Params) (o : OrderW) : Prop :=
  o.dexID.val < 2 ^ 16 ∧
  o.orderID.val < 2 ^ 4 ∧
  o.accountS.val < 2 ^ 24 ∧
  o.accountB.val < 2 ^ 24 ∧
  o.accountF.val < 2 ^ 24 ∧
  o.amountS.val < 2 ^ 96 ∧
  o.amountB.val < 2 ^ 96 ∧
  o.amountF.val < 2 ^ 96 ∧
  o.padding.val < 2 ^ 1 ∧
  P.eddsa o.pubKeyX o.pubKeyY o.sigRX o.sigRY o.sigS (sigMessage o)

/-- Constraints of the ethsnarks `subadd_gadget` (library code, modelled
from the spec §4.4): `X = balance_from − delta`, `Y = balance_to + delta`,
with 96-bit range constraints on both outputs (which assert
`balance_from ≥ delta`). -/
def subaddConstraints (bFrom bTo delta X Y : F) : Prop :=
  X = bFrom - delta ∧ Y = bTo + delta ∧ X.val < 2 ^ 96 ∧ Y.val < 2 ^ 96

/-- Root recomputation of the ethsnarks Merkle path gadgets
(`merkle_path_authenticator` / `markle_path_compute`, library code,
modelled from the spec §4.6): starting from the leaf hash, combine with the
sibling at each level, sided by the corresponding address bit
(least-significant address bit first). -/
def merkleCompute (node : ℕ → F → F → F) : ℕ → List Bool → F → List F → F
  | _, _, cur, [] => cur
  | lvl, addr, cur, s :: ss =>
    merkleCompute node (lvl + 1) addr.tail
      (if addr.headD false then node lvl s cur else node lvl cur s) ss

/-- Witness variables of `UpdateFilledGadget` (Circuit.h lines 246-324):
the before/after cumulative fill and the shared sibling path.  (The
gadget's internal `fill` dual variable is never constrained nor read by
`generate_r1cs_constraints`, which uses the caller's fill instead; it is
omitted.) -/
structure UpdateFilledW where
  filledBefore : F
  filledAfter : F
  proof : List F

/-- Constraints of `UpdateFilledGadget::generate_r1cs_constraints`
(Circuit.h lines 314-323): `filledBefore + fill = filledAfter`, plus the
inclusion proof of the before-leaf `H2(filledBefore, filledBefore)` against
the supplied pre-root over the shared path. -/
def updateFilledConstraints (P : Params) (address : List Bool)
    (merkleRootBefore : F) (fill : F) (u : UpdateFilledW) : Prop :=
  u.proof.length = P.depthFilled ∧
  u.filledBefore + fill = u.filledAfter ∧
  merkleCompute P.node 0 address (P.H2 u.filledBefore u.filledBefore) u.proof = merkleRootBefore

/-- The emitted post-root of `UpdateFilledGadget::result()` (Circuit.h lines
291-294): the root recomputed from the after-leaf
`H2(filledAfter, filledAfter)` over the same path and address. -/
def updateFilledResult (P : Params) (address : List Bool) (u : UpdateFilledW) : F :=
  merkleCompute P.node 0 address (P.H2 u.filledAfter u.filledAfter) u.proof

/-- Witness variables of `UpdateBalanceGadget` (Circuit.h lines 326-392):
only the sibling path (the leaves are built from wires owned by the caller;
the internal `amount` dual variable is never constrained nor used by
`generate_r1cs_constraints` and is omitted). -/
structure UpdateBalanceW where
  proof : List F

/-- The four inputs of an account-leaf hash `H(pub_x, pub_y, token,
balance)` (Circuit.h lines 359-360). -/
structure LeafArgs where
  x : F
  y : F
  token : F
  bal : F

/-- An account leaf hash. -/
def balanceLeaf (H : F → F → F → F → F) (a : LeafArgs) : F :=
  H a.x a.y a.token a.bal

/-- Constraints of `UpdateBalanceGadget::generate_r1cs_constraints`
(Circuit.h lines 384-391): the inclusion proof of the before-leaf against
the supplied pre-root over the shared path. -/
def updateBalanceConstraints (P : Params) (address : List Bool)
    (leafBefore : LeafArgs) (merkleRootBefore : F) (u : UpdateBalanceW) : Prop :=
  u.proof.length = P.depthAccounts ∧
  merkleCompute P.node 0 address (balanceLeaf P.H4 leafBefore) u.proof = merkleRootBefore

/-- The emitted post-root of `UpdateBalanceGadget::result()` (Circuit.h
lines 369-372): the root recomputed from the after-leaf over the same path
and address. -/
def updateBalanceResult (P : Params) (address : List Bool)
    (leafAfter : LeafArgs) (u : UpdateBalanceW) : F :=
  merkleCompute P.node 0 address (balanceLeaf P.H4 leafAfter) u.proof

/-- Witness variables of `RingSettlementGadget` (Circuit.h lines 394-652).
Dual variables are represented by their packed values; the subadd outputs
`X`/`Y` of the four `subadd_gadget`s and the `invariant` auxiliaries of the
four `RateCheckerGadget`s are explicit wires. -/
structure RingW where
  orderA : OrderW
  orderB : OrderW
  fillS_A : F
  fillB_A : F
  fillF_A : F
  fillS_B : F
  fillB_B : F
  fillF_B : F
  balanceS_A_before : F
  balanceB_A_before : F
  balanceF_A_before : F
  balanceF_W_A_before : F
  balanceS_B_before : F
  balanceB_B_before : F
  balanceF_B_before : F
  balanceF_W_B_before : F
  balanceSB_A_X : F
  balanceSB_A_Y : F
  balanceSB_B_X : F
  balanceSB_B_Y : F
  balanceF_A_X : F
  balanceF_A_Y : F
  balanceF_B_X : F
  balanceF_B_Y : F
  updateFilledA : UpdateFilledW
  updateFilledB : UpdateFilledW
  updateBalanceS_A : UpdateBalanceW
  updateBalanceB_A : UpdateBalanceW
  updateBalanceF_A : UpdateBalanceW
  updateBalanceS_B : UpdateBalanceW
  updateBalanceB_B : UpdateBalanceW
  updateBalanceF_B : UpdateBalanceW
  filledLeqA : LeqW
  filledLeqB : LeqW
  rateA_invariant : F
  rateB_invariant : F
  rateFeeA_invariant : F
  rateFeeB_invariant : F
  matchLeqA : LeqW
  matchLeqB : LeqW

/-- Address wires of `updateFilledA`: `flatten({orderA.orderID.bits,
orderA.accountS.bits})` (Circuit.h line 479). -/
def filledAddressA (w : RingW) : List Bool :=
  bitsOf 4 w.orderA.orderID ++ bitsOf 24 w.orderA.accountS

/-- Address wires of `updateFilledB`: `flatten({orderB.orderID.bits,
orderB.accountS.bits})` (Circuit.h line 480). -/
def filledAddressB (w : RingW) : List Bool :=
  bitsOf 4 w.orderB.orderID ++ bitsOf 24 w.orderB.accountS

/-- The before-leaf inputs of the six balance updates, in construction
order S_A, B_A, F_A, S_B, B_B, F_B (Circuit.h lines 483-488): public key
and token of the owning order together with the pre-balance wire. -/
def ringLeafBefore (w : RingW) : Fin 6 → LeafArgs
  | 0 => ⟨w.orderA.pubKeyX, w.orderA.pubKeyY, w.orderA.tokenS, w.balanceS_A_before⟩
  | 1 => ⟨w.orderA.pubKeyX, w.orderA.pubKeyY, w.orderA.tokenB, w.balanceB_A_before⟩
  | 2 => ⟨w.orderA.pubKeyX, w.orderA.pubKeyY, w.orderA.tokenF, w.balanceF_A_before⟩
  | 3 => ⟨w.orderB.pubKeyX, w.orderB.pubKeyY, w.orderB.tokenS, w.balanceS_B_before⟩
  | 4 => ⟨w.orderB.pubKeyX, w.orderB.pubKeyY, w.orderB.tokenB, w.balanceB_B_before⟩
  | 5 => ⟨w.orderB.pubKeyX, w.orderB.pubKeyY, w.orderB.tokenF, w.balanceF_B_before⟩

/-- The after-leaf inputs of the six balance updates (Circuit.h lines
483-488): the same public-key and token wires, with the post-balance wire
taken from the corresponding `subadd_gadget` output. -/
def ringLeafAfter (w : RingW) : Fin 6 → LeafArgs
  | 0 => ⟨w.orderA.pubKeyX, w.orderA.pubKeyY, w.orderA.tokenS, w.balanceSB_A_X⟩
  | 1 => ⟨w.orderA.pubKeyX, w.orderA.pubKeyY, w.orderA.tokenB, w.balanceSB_B_Y⟩
  | 2 => ⟨w.orderA.pubKeyX, w.orderA.pubKeyY, w.orderA.tokenF, w.balanceF_A_X⟩
  | 3 => ⟨w.orderB.pubKeyX, w.orderB.pubKeyY, w.orderB.tokenS, w.balanceSB_B_X⟩
  | 4 => ⟨w.orderB.pubKeyX, w.orderB.pubKeyY, w.orderB.tokenB, w.balanceSB_A_Y⟩
  | 5 => ⟨w.orderB.pubKeyX, w.orderB.pubKeyY, w.orderB.tokenF, w.balanceF_B_X⟩

/-- The address wires of the six balance updates (Circuit.h lines 483-488):
the 24-bit account index of the respective leg. -/
def ringBalanceAddress (w : RingW) : Fin 6 → List Bool
  | 0 => bitsOf 24 w.orderA.accountS
  | 1 => bitsOf 24 w.orderA.accountB
  | 2 => bitsOf 24 w.orderA.accountF
  | 3 => bitsOf 24 w.orderB.accountS
  | 4 => bitsOf 24 w.orderB.accountB
  | 5 => bitsOf 24 w.orderB.accountF

/-- The Merkle path witness of each of the six balance updates. -/
def ringBalanceUpdateW (w : RingW) : Fin 6 → UpdateBalanceW
  | 0 => w.updateBalanceS_A
  | 1 => w.updateBalanceB_A
  | 2 => w.updateBalanceF_A
  | 3 => w.updateBalanceS_B
  | 4 => w.updateBalanceB_B
  | 5 => w.updateBalanceF_B

/-- The post-root emitted by the `i`-th balance update. -/
def ringBalanceRoot (P : Params) (w : RingW) (i : Fin 6) : F :=
  updateBalanceResult P (ringBalanceAddress w i) (ringLeafAfter w i) (ringBalanceUpdateW w i)

/-- The six chained balance-update inclusion constraints (Circuit.h lines
483-488 and 627-632): each update's pre-root is the previous update's
emitted post-root, starting from the ring's accounts pre-root. -/
def ringBalanceConstraints (P : Params) (accountsMerkleRoot : F) (w : RingW) : Prop :=
  updateBalanceConstraints P (ringBalanceAddress w 0) (ringLeafBefore w 0) accountsMerkleRoot (ringBalanceUpdateW w 0) ∧
  updateBalanceConstraints P (ringBalanceAddress w 1) (ringLeafBefore w 1) (ringBalanceRoot P w 0) (ringBalanceUpdateW w 1) ∧
  updateBalanceConstraints P (ringBalanceAddress w 2) (ringLeafBefore w 2) (ringBalanceRoot P w 1) (ringBalanceUpdateW w 2) ∧
  updateBalanceConstraints P (ringBalanceAddress w 3) (ringLeafBefore w 3) (ringBalanceRoot P w 2) (ringBalanceUpdateW w 3) ∧
  updateBalanceConstraints P (ringBalanceAddress w 4) (ringLeafBefore w 4) (ringBalanceRoot P w 3) (ringBalanceUpdateW w 4) ∧
  updateBalanceConstraints P (ringBalanceAddress w 5) (ringLeafBefore w 5) (ringBalanceRoot P w 4) (ringBalanceUpdateW w 5)

/-- `RingSettlementGadget::getNewTradingHistoryMerkleRoot()` (Circuit.h
lines 505-508): the post-root of `updateFilledB`. -/
def ringNewHistoryRoot (P : Params) (w : RingW) : F :=
  updateFilledResult P (filledAddressB w) w.updateFilledB

/-- `RingSettlementGadget::getNewAccountsMerkleRoot()` (Circuit.h lines
510-513): the post-root of `updateBalanceB_B`, the fifth of the six balance
updates. -/
def ringNewAccountsRoot (P : Params) (w : RingW) : F :=
  ringBalanceRoot P w 4

/-- Constraints of `RingSettlementGadget::generate_r1cs_constraints`
(Circuit.h lines 595-651), in source order: the two orders, range
constraints of the six fill dual variables, the four sub-add gadgets, the
two chained trading-history updates with the two filled-cap assertions, the
six chained balance updates, the two token-matching equalities, the four
rate checkers with the operands of lines 493-497, and the two
match-feasibility assertions. -/
def ringConstraints (P : Params) (tradingHistoryMerkleRoot accountsMerkleRoot : F)
    (w : RingW) : Prop :=
  orderConstraints P w.orderA ∧
  orderConstraints P w.orderB ∧
  w.fillS_A.val < 2 ^ 96 ∧
  w.fillB_A.val < 2 ^ 96 ∧
  w.fillF_A.val < 2 ^ 96 ∧
  w.fillS_B.val < 2 ^ 96 ∧
  w.fillB_B.val < 2 ^ 96 ∧
  w.fillF_B.val < 2 ^ 96 ∧
  subaddConstraints w.balanceS_A_before w.balanceB_B_before w.fillS_A w.balanceSB_A_X w.balanceSB_A_Y ∧
  subaddConstraints w.balanceS_B_before w.balanceB_A_before w.fillS_B w.balanceSB_B_X w.balanceSB_B_Y ∧
  subaddConstraints w.balanceF_A_before w.balanceF_W_A_before w.fillF_A w.balanceF_A_X w.balanceF_A_Y ∧
  subaddConstraints w.balanceF_B_before w.balanceF_W_B_before w.fillF_B w.balanceF_B_X w.balanceF_B_Y ∧
  updateFilledConstraints P (filledAddressA w) tradingHistoryMerkleRoot w.fillS_A w.updateFilledA ∧
  updateFilledConstraints P (filledAddressB w) (updateFilledResult P (filledAddressA w) w.updateFilledA) w.fillS_B w.updateFilledB ∧
  leqConstraints w.filledLeqA w.updateFilledA.filledAfter w.orderA.amountS ∧
  leqConstraints w.filledLeqB w.updateFilledB.filledAfter w.orderB.amountS ∧
  ringBalanceConstraints P accountsMerkleRoot w ∧
  w.orderA.tokenS = w.orderB.tokenB ∧
  w.orderA.tokenB = w.orderB.tokenS ∧
  rateCheckerConstraints w.fillS_A w.fillB_A w.orderA.amountS w.orderA.amountB w.rateA_invariant ∧
  rateCheckerConstraints w.fillS_B w.fillB_B w.orderA.amountB w.orderB.amountB w.rateB_invariant ∧
  rateCheckerConstraints w.fillF_A w.fillS_A w.orderA.amountF w.orderA.amountS w.rateFeeA_invariant ∧
  rateCheckerConstraints w.fillF_B w.fillS_B w.orderA.amountF w.orderB.amountS w.rateFeeB_invariant ∧
  leqConstraints w.matchLeqA w.fillB_B w.fillS_A ∧
  leqConstraints w.matchLeqB w.fillB_A w.fillS_B

/-- `RingSettlementGadget::getPublicData()` (Circuit.h lines 515-524): for
each order, its dexID, orderID and accountS bits, the counterparty's
accountB bits, the own fillS bits, the own accountF bits and the own fillF
bits. -/
def ringPublicData (w : RingW) : List (List Bool) :=
  [bitsOf 16 w.orderA.dexID, bitsOf 4 w.orderA.orderID,
   bitsOf 24 w.orderA.accountS, bitsOf 24 w.orderB.accountB, bitsOf 96 w.fillS_A,
   bitsOf 24 w.orderA.accountF, bitsOf 96 w.fillF_A,
   bitsOf 16 w.orderB.dexID, bitsOf 4 w.orderB.orderID,
   bitsOf 24 w.orderB.accountS, bitsOf 24 w.orderA.accountB, bitsOf 96 w.fillS_B,
   bitsOf 24 w.orderB.accountF, bitsOf 96 w.fillF_B]

/-- Wires of `CircuitGadget` (Circuit.h lines 654-732).  The four roots and
the public-data hash are 256-bit dual variables, wider than the field, so
their bit arrays and packed variables are carried as distinct wires (the
code only ever links bits and packed through
`generate_r1cs_constraints(true)`, which it invokes solely for
`tradingHistoryMerkleRootBefore` and `publicDataHash`). -/
structure CircuitW where
  publicDataHashPacked : F
  publicDataHashBits : List Bool
  tradingHistoryMerkleRootBeforePacked : F
  tradingHistoryMerkleRootBeforeBits : List Bool
  tradingHistoryMerkleRootAfterPacked : F
  tradingHistoryMerkleRootAfterBits : List Bool
  accountsMerkleRootBeforePacked : F
  accountsMerkleRootBeforeBits : List Bool
  accountsMerkleRootAfterPacked : F
  accountsMerkleRootAfterBits : List Bool
  ringSettlements : List RingW

/-- The ring chain of `CircuitGadget::generate_r1cs_constraints` (Circuit.h
lines 702-711): ring 0 is built on
`(tradingHistoryMerkleRootBefore.packed, accountsMerkleRootBefore.packed)`;
every later ring is built on the previous ring's
`getNewTradingHistoryMerkleRoot()` for BOTH pre-roots — line 705 passes
`getNewTradingHistoryMerkleRoot()` in the accounts position as well, which
this translation reproduces verbatim. -/
def ringChainConstraints (P : Params) : F → F → List RingW → Prop
  | _, _, [] => True
  | h, a, r :: rs =>
    ringConstraints P h a r ∧
    ringChainConstraints P (ringNewHistoryRoot P r) (ringNewHistoryRoot P r) rs

/-- The accounts pre-root wire handed to each ring by the loop of Circuit.h
lines 702-706 (first ring: `accountsMerkleRootBefore.packed`; ring j+1:
`ringSettlements[j].getNewTradingHistoryMerkleRoot()` — the literal line
705). -/
def accountsPreRoots (P : Params) : F → F → List RingW → List F
  | _, _, [] => []
  | _, a, r :: rs => a :: accountsPreRoots P (ringNewHistoryRoot P r) (ringNewHistoryRoot P r) rs

/-- The trading-history post-root of the final ring
(`ringSettlements.back().getNewTradingHistoryMerkleRoot()`, Circuit.h line
731); for an empty batch the seed root is returned (the code requires at
least one ring). -/
def lastNewHistoryRoot (P : Params) (h0 : F) (rs : List RingW) : F :=
  rs.foldl (fun _ r => ringNewHistoryRoot P r) h0

/-- The accounts post-root of the final ring
(`ringSettlements.back().getNewAccountsMerkleRoot()`); for an empty batch
the seed root is returned. -/
def lastNewAccountsRoot (P : Params) (a0 : F) (rs : List RingW) : F :=
  rs.foldl (fun _ r => ringNewAccountsRoot P r) a0

/-- The `publicDataBits` chunk list of `CircuitGadget` (Circuit.h lines
700-711): the bits of `tradingHistoryMerkleRootBefore`, the bits of
`tradingHistoryMerkleRootAfter`, then every ring's `getPublicData()`
chunks in ring order.  The accounts roots are never pushed. -/
def circuitPublicDataBits (cw : CircuitW) : List (List Bool) :=
  cw.tradingHistoryMerkleRootBeforeBits :: cw.tradingHistoryMerkleRootAfterBits ::
    cw.ringSettlements.flatMap ringPublicData

/-- The 256 digest-binding constraints of Circuit.h lines 725-728:
`digest.bits[255 - i] = publicDataHash.bits[i]` for every `i < 256`. -/
def hashBind (digest pub : List Bool) : Prop :=
  ∀ i : Fin 256, digest.getD (255 - i.val) false = pub.getD i.val false

/-- Constraints of `CircuitGadget::generate_r1cs_constraints` (Circuit.h
lines 694-732): the bits/packed binding of `tradingHistoryMerkleRootBefore`
and of `publicDataHash` (the only two dual variables whose
`generate_r1cs_constraints` the code invokes), the chained ring
constraints, the SHA-256 digest binding over the reverse-flattened public
data, and the closing constraint equating the last ring's trading-history
post-root with `tradingHistoryMerkleRootAfter.packed`.  No constraint
mentions the accounts roots (before or after) or the bit/packed linkage of
`tradingHistoryMerkleRootAfter`. -/
def circuitConstraints (P : Params) (cw : CircuitW) : Prop :=
  cw.tradingHistoryMerkleRootBeforeBits.length = 256 ∧
  packBits cw.tradingHistoryMerkleRootBeforeBits = cw.tradingHistoryMerkleRootBeforePacked ∧
  cw.publicDataHashBits.length = 256 ∧
  packBits cw.publicDataHashBits = cw.publicDataHashPacked ∧
  ringChainConstraints P cw.tradingHistoryMerkleRootBeforePacked cw.accountsMerkleRootBeforePacked cw.ringSettlements ∧
  hashBind (P.sha256 (flattenReverse (circuitPublicDataBits cw))) cw.publicDataHashBits ∧
  lastNewHistoryRoot P cw.tradingHistoryMerkleRootBeforePacked cw.ringSettlements = cw.tradingHistoryMerkleRootAfterPacked

/-- Modelled from the spec: the per-order witness record consumed by
`OrderGadget::generate_r1cs_witness` (the `Order` struct lives in Data.h,
which is not among the sources; §6 of the spec lists its content: the nine
packed order fields, three token identifiers, the public key and the EdDSA
signature `(R, s)`). -/
structure OrderData where
  dexID : F
  orderID : F
  accountS : F
  accountB : F
  accountF : F
  amountS : F
  amountB : F
  amountF : F
  walletF : F
  tokenS : F
  tokenB : F
  tokenF : F
  pubKeyX : F
  pubKeyY : F
  sigRX : F
  sigRY : F
  sigS : List Bool

/-- Modelled from the spec: an account record (`Data.h`), of which the
witness pass reads only the balance. -/
structure AccountData where
  pubX : F
  pubY : F
  token : F
  balance : F

/-- Modelled from the spec: the per-ring witness record consumed by
`RingSettlementGadget::generate_r1cs_witness` (the `RingSettlement` struct
of Data.h; §6: two orders, six fills, six pre-balances, two pre-filleds and
one Merkle proof per update). -/
structure RingData where
  orderA : OrderData
  orderB : OrderData
  fillS_A : F
  fillB_A : F
  fillF_A : F
  fillS_B : F
  fillB_B : F
  fillF_B : F
  accountS_A_before : AccountData
  accountB_A_before : AccountData
  accountF_A_before : AccountData
  accountS_B_before : AccountData
  accountB_B_before : AccountData
  accountF_B_before : AccountData
  filledA : F
  filledB : F
  proofFilledA : List F
  proofFilledB : List F
  accountS_A_proof : List F
  accountB_A_proof : List F
  accountF_A_proof : List F
  accountS_B_proof : List F
  accountB_B_proof : List F
  accountF_B_proof : List F

/-- Translation of `OrderGadget::generate_r1cs_witness` (Circuit.h lines
188-226): every constrained dual variable is filled from the order record;
the fill of `walletF` (lines 209-210) is commented out in the source, so
the wire keeps the protoboard default value 0; `padding` is filled with
0. -/
def orderWitnessOf (d : OrderData) : OrderW :=
  ⟨d.dexID, d.orderID, d.accountS, d.accountB, d.accountF,
   d.amountS, d.amountB, d.amountF, 0, 0,
   d.tokenS, d.tokenB, d.tokenF, d.pubKeyX, d.pubKeyY, d.sigRX, d.sigRY, d.sigS⟩

/-- Translation of `RingSettlementGadget::generate_r1cs_witness` (Circuit.h
lines 526-592): the fee-wallet pre-balances `balanceF_W_A_before` /
`balanceF_W_B_before` are assigned the constant 0 (lines 547 and 551); the
sub-add outputs, filled-after values, comparison wires and rate invariants
are computed as the respective library gadgets' witness passes do
(`invariant := amountS * fillB`, Circuit.h line 118). -/
def ringWitnessOf (d : RingData) : RingW where
  orderA := orderWitnessOf d.orderA
  orderB := orderWitnessOf d.orderB
  fillS_A := d.fillS_A
  fillB_A := d.fillB_A
  fillF_A := d.fillF_A
  fillS_B := d.fillS_B
  fillB_B := d.fillB_B
  fillF_B := d.fillF_B
  balanceS_A_before := d.accountS_A_before.balance
  balanceB_A_before := d.accountB_A_before.balance
  balanceF_A_before := d.accountF_A_before.balance
  balanceF_W_A_before := 0
  balanceS_B_before := d.accountS_B_before.balance
  balanceB_B_before := d.accountB_B_before.balance
  balanceF_B_before := d.accountF_B_before.balance
  balanceF_W_B_before := 0
  balanceSB_A_X := d.accountS_A_before.balance - d.fillS_A
  balanceSB_A_Y := d.accountB_B_before.balance + d.fillS_A
  balanceSB_B_X := d.accountS_B_before.balance - d.fillS_B
  balanceSB_B_Y := d.accountB_A_before.balance + d.fillS_B
  balanceF_A_X := d.accountF_A_before.balance - d.fillF_A
  balanceF_A_Y := 0 + d.fillF_A
  balanceF_B_X := d.accountF_B_before.balance - d.fillF_B
  balanceF_B_Y := 0 + d.fillF_B
  updateFilledA := ⟨d.filledA, d.filledA + d.fillS_A, d.proofFilledA⟩
  updateFilledB := ⟨d.filledB, d.filledB + d.fillS_B, d.proofFilledB⟩
  updateBalanceS_A := ⟨d.accountS_A_proof⟩
  updateBalanceB_A := ⟨d.accountB_A_proof⟩
  updateBalanceF_A := ⟨d.accountF_A_proof⟩
  updateBalanceS_B := ⟨d.accountS_B_proof⟩
  updateBalanceB_B := ⟨d.accountB_B_proof⟩
  updateBalanceF_B := ⟨d.accountF_B_proof⟩
  filledLeqA := leqWitness (d.filledA + d.fillS_A) d.orderA.amountS
  filledLeqB := leqWitness (d.filledB + d.fillS_B) d.orderB.amountS
  rateA_invariant := d.orderA.amountS * d.fillB_A
  rateB_invariant := d.orderA.amountB * d.fillB_B
  rateFeeA_invariant := d.orderA.amountF * d.fillS_A
  rateFeeB_invariant := d.orderA.amountF * d.fillS_B
  matchLeqA := leqWitness d.fillB_B d.fillS_A
  matchLeqB := leqWitness d.fillB_A d.fillS_B

/-- A degenerate choice of the external primitives: depth-0 trees, constant
compressors, a trivially satisfied signature predicate and a constant
digest.  The circuit builder is parametric in all of these, so any theorem
quantified over `Params` may be instantiated here. -/
def Ptriv : Params :=
  ⟨0, 0, fun _ _ => 0, fun _ _ _ _ => 0, fun _ _ _ => 0, fun _ _ _ _ _ _ => True,
   fun _ => List.replicate 256 false⟩

/-- The all-zero order witness. -/
def o0 : OrderW := ⟨0, 0, 0, 0, 0, 0, 0, 0, 0, 0, 0, 0, 0, 0, 0, 0, 0, []⟩

/-- The comparison wires for two equal operands: `lt = 0`, `leq = 1`. -/
def leqEqW : LeqW := ⟨0, 1⟩

/-- The all-zero ring witness (zero orders, zero fills, zero balances,
empty depth-0 Merkle paths). -/
def w0 : RingW :=
  ⟨o0, o0, 0, 0, 0, 0, 0, 0,
   0, 0, 0, 0, 0, 0, 0, 0,
   0, 0, 0, 0, 0, 0, 0, 0,
   ⟨0, 0, []⟩, ⟨0, 0, []⟩,
   ⟨[]⟩, ⟨[]⟩, ⟨[]⟩, ⟨[]⟩, ⟨[]⟩, ⟨[]⟩,
   leqEqW, leqEqW, 0, 0, 0, 0, leqEqW, leqEqW⟩


/-- The all-zero single-ring circuit witness: zero roots (the packing of
256 zero bits), the constant digest of `Ptriv.sha256` and one all-zero
ring. -/
def cw0 : CircuitW :=
  ⟨0, List.replicate 256 false,
   0, List.replicate 256 false,
   0, List.replicate 256 false,
   0, List.replicate 256 false,
   0, List.replicate 256 false,
   [w0]⟩


/-- A satisfying ring witness that exercises the rate checkers with
asymmetric amounts: order A sells 3 for 3 (fee rate 3/3), order B sells 3
for 1; fills `fillS_A = fillB_A = 1`, `fillS_B = 2`, `fillB_B = 1`.  The
buggy operand `orderA.amountB` of `rateCheckerB` (Circuit.h line 494) and
`orderA.amountF` of `rateCheckerFeeB` (line 497) make these fills
acceptable even though order B's own rate `amountS/amountB = 3/1` and fee
rate are violated. -/
def w1 : RingW :=
  { w0 with
    orderA := { o0 with amountS := 2, amountB := 2 }
    orderB := { o0 with amountS := 3, amountB := 1, amountF := 5 }
    fillS_A := 1
    fillB_A := 1
    fillS_B := 2
    fillB_B := 1
    balanceS_A_before := 1
    balanceS_B_before := 2
    balanceSB_A_X := 0
    balanceSB_A_Y := 1
    balanceSB_B_X := 0
    balanceSB_B_Y := 2
    updateFilledA := ⟨0, 1, []⟩
    updateFilledB := ⟨0, 2, []⟩
    filledLeqA := ⟨1, 1⟩
    filledLeqB := ⟨1, 1⟩
    rateA_invariant := 2
    rateB_invariant := 2
    rateFeeA_invariant := 0
    rateFeeB_invariant := 0
    matchLeqA := ⟨0, 1⟩
    matchLeqB := ⟨1, 1⟩ }

/-- A single-ring circuit witness around `w1`. -/
def cwC1 : CircuitW := { cw0 with ringSettlements := [w1] }

/-- The all-zero circuit witness with the (nowhere-constrained) declared
accounts post-root replaced by 1. -/
def cwC3 : CircuitW := { cw0 with accountsMerkleRootAfterPacked := 1 }

/-- Primitives whose two leaf compressors are distinct constants (every
history leaf hashes to 1, every balance leaf to 2, over depth-0 trees), to
separate the two post-root wires of a ring. -/
def P2 : Params :=
  ⟨0, 0, fun _ _ => 1, fun _ _ _ _ => 2, fun _ _ _ => 0, fun _ _ _ _ _ _ => True,
   fun _ => List.replicate 256 false⟩

/-- Primitives whose signature predicate records only the length of the
signed message (380 = 16+4+24+24+24+96+96+96 bits). -/
def PmsgLen : Params := { Ptriv with eddsa := fun _ _ _ _ _ m => m.length = 380 }

/-- The zero order record. -/
def od0 : OrderData := ⟨0, 0, 0, 0, 0, 0, 0, 0, 0, 0, 0, 0, 0, 0, 0, 0, []⟩

/-- The zero account record. -/
def ad0 : AccountData := ⟨0, 0, 0, 0⟩

/-- The zero ring-settlement record. -/
def d0 : RingData :=
  ⟨od0, od0, 0, 0, 0, 0, 0, 0, ad0, ad0, ad0, ad0, ad0, ad0, 0, 0,
   [], [], [], [], [], [], [], []⟩

/-- The zero order with a `walletF` value that does not fit in 24 bits. -/
def oC8 : OrderW := { o0 with walletF := (2 ^ 24 : F) }

/-- Replace an order's `walletF` wire. -/
def setWalletF (o : OrderW) (v : F) : OrderW := { o with walletF := v }

/-- Replace the `walletF` wires of both orders of a ring. -/
def ringSetWalletF (w : RingW) (v₁ v₂ : F) : RingW :=
  { w with orderA := setWalletF w.orderA v₁, orderB := setWalletF w.orderB v₂ }

/-- Replace an order's `walletF` and token wires. -/
def setOrderMeta (o : OrderW) (wF tS tB tF : F) : OrderW :=
  { o with walletF := wF, tokenS := tS, tokenB := tB, tokenF := tF }

/-- Replace the Merkle path of a ring's `updateBalanceF_B`. -/
def setUpdateBalanceF_B (w : RingW) (u : UpdateBalanceW) : RingW :=
  { w with updateBalanceF_B := u }

/-- Replace the four accounts-root wires of the circuit witness. -/
def setAccountsRoots (cw : CircuitW) (bp : F) (bb : List Bool) (ap : F) (ab : List Bool) :
    CircuitW :=
  { cw with accountsMerkleRootBeforePacked := bp, accountsMerkleRootBeforeBits := bb,
            accountsMerkleRootAfterPacked := ap, accountsMerkleRootAfterBits := ab }

/-- The spec-side order-centric public-data record (spec §6, "Public-data
wire format"): `(dexID:16 ∥ orderID:4 ∥ accountS:24 ∥
accountB_counterparty:24 ∥ fillS:96 ∥ accountF:24 ∥ fillF:96)`, built from
the owning order, the counterparty order and the owning order's fills. -/
def specOrderRecord (self cp : OrderW) (fillS fillF : F) : List (List Bool) :=
  [bitsOf 16 self.dexID, bitsOf 4 self.orderID, bitsOf 24 self.accountS,
   bitsOf 24 cp.accountB, bitsOf 96 fillS, bitsOf 24 self.accountF, bitsOf 96 fillF]

/-- A 256-bit test pattern. -/
def dW : List Bool := (List.range 256).map (fun i => decide (i % 3 = 0))

theorem F_one_ne_zero : (1 : F) ≠ 0 := by decide

set_option synthInstance.maxSize 3000 in
set_option synthInstance.maxHeartbeats 2000000 in
set_option maxHeartbeats 4000000 in
set_option maxRecDepth 4000 in
/-- The all-zero ring witness satisfies the full ring constraint system
over the degenerate primitives. -/
theorem w0_sat : ringConstraints Ptriv 0 0 w0 := by
  simp only [ringConstraints, orderConstraints, subaddConstraints, leqConstraints,
    rateCheckerConstraints, updateFilledConstraints, ringBalanceConstraints,
    updateBalanceConstraints, Ptriv]
  decide

set_option synthInstance.maxSize 3000 in
set_option synthInstance.maxHeartbeats 2000000 in
set_option maxHeartbeats 4000000 in
set_option maxRecDepth 4000 in
/-- The all-zero single-ring circuit witness satisfies the full circuit
constraint system over the degenerate primitives. -/
theorem cw0_sat : circuitConstraints Ptriv cw0 := by
  simp only [circuitConstraints, ringChainConstraints, ringConstraints, orderConstraints,
    subaddConstraints, leqConstraints, rateCheckerConstraints, updateFilledConstraints,
    ringBalanceConstraints, updateBalanceConstraints, hashBind, Ptriv]
  decide

/-- A satisfied `LeqGadget` asserts the integer comparison of its operands
and pins its `leq` wire to 1. -/
theorem leq_le {w : LeqW} {A B : F} (h : leqConstraints w A B) :
    A.val ≤ B.val ∧ w.leq = 1 := by
  obtain ⟨-, h2, h3⟩ := h
  refine ⟨?_, h3⟩
  by_contra hn
  rw [if_neg hn] at h2
  exact F_one_ne_zero (h3.symm.trans h2)

/-- Every ring of a satisfied ring chain satisfies the ring constraint
system for some pair of pre-roots. -/
theorem ringChainConstraints_mem (P : Params) :
    ∀ (rs : List RingW) (h a : F), ringChainConstraints P h a rs →
      ∀ r ∈ rs, ∃ h' a', ringConstraints P h' a' r := by
  intro rs
  induction rs with
  | nil =>
    intro h a _ r hr
    cases hr
  | cons x xs ih =>
    intro h a hc r hr
    cases hr with
    | head => exact ⟨h, a, hc.1⟩
    | tail _ hr' => exact ih _ _ hc.2 r hr'

theorem flattenReverse_foldl {α : Type} (l : List (List α)) (acc : List α) :
    l.foldl (fun acc s => acc ++ s.reverse) acc = acc ++ (l.map List.reverse).flatten := by
  induction l generalizing acc with
  | nil => simp
  | cons h t ih => simp [ih, List.append_assoc]

/-- Every ring contributes exactly the two spec-side order-centric records
to the chunk stream. -/
theorem flatMap_ringPublicData (l : List RingW) :
    l.flatMap ringPublicData =
      l.flatMap (fun r => specOrderRecord r.orderA r.orderB r.fillS_A r.fillF_A ++
                          specOrderRecord r.orderB r.orderA r.fillS_B r.fillF_B) := by
  induction l with
  | nil => rfl
  | cons r rs ih =>
    rw [List.flatMap_cons, List.flatMap_cons, ih]
    rfl

set_option synthInstance.maxSize 3000 in
set_option synthInstance.maxHeartbeats 2000000 in
set_option maxHeartbeats 4000000 in
set_option maxRecDepth 4000 in
/-- Claim C1 (code evaluation at the failing input): the constraint system
accepts the circuit witness `cwC1` containing ring `w1`, yet order B's own
rate invariant `fillS_B * amountB_B = fillB_B * amountS_B` and own fee-rate
invariant `fillF_B * amountS_B = fillS_B * amountF_B` both fail on `w1`
(the code checks order B's fills against `orderA.amountB` and
`orderA.amountF`, Circuit.h lines 494 and 497, not against order B's own
amounts as the claim states). -/
theorem claimC1_code_eval :
    circuitConstraints Ptriv cwC1 ∧ w1 ∈ cwC1.ringSettlements ∧
    w1.fillS_B * w1.orderB.amountB ≠ w1.fillB_B * w1.orderB.amountS ∧
    w1.fillF_B * w1.orderB.amountS ≠ w1.fillS_B * w1.orderB.amountF := by
  refine ⟨?_, List.mem_singleton.mpr rfl, by decide, by decide⟩
  simp only [circuitConstraints, ringChainConstraints, ringConstraints, orderConstraints,
    subaddConstraints, leqConstraints, rateCheckerConstraints, updateFilledConstraints,
    ringBalanceConstraints, updateBalanceConstraints, hashBind, Ptriv]
  decide

/-- Claim C2 (code evaluation at the failing input): the loop of Circuit.h
lines 702-706 hands ring 1 the value of ring 0's
`getNewTradingHistoryMerkleRoot()` as its accounts pre-root (line 705),
not ring 0's accounts post-root `getNewAccountsMerkleRoot()`; over
primitives whose history and balance leaf compressors are the distinct
constants 1 and 2, the two post-roots differ, so the accounts pre-root of
ring 1 is not ring 0's accounts post-root. -/
theorem claimC2_code_eval :
    accountsPreRoots P2 0 0 [w0, w0] = [0, ringNewHistoryRoot P2 w0] ∧
    ringNewHistoryRoot P2 w0 = 1 ∧
    ringNewAccountsRoot P2 w0 = 2 ∧
    ringNewHistoryRoot P2 w0 ≠ ringNewAccountsRoot P2 w0 :=
  ⟨rfl, rfl, rfl, by decide⟩

set_option synthInstance.maxSize 3000 in
set_option synthInstance.maxHeartbeats 2000000 in
set_option maxHeartbeats 4000000 in
set_option maxRecDepth 4000 in
/-- Claim C3 (code evaluation at the failing input): the constraint system
accepts the circuit witness `cwC3`, whose declared accounts post-root
`accountsMerkleRootAfter.packed = 1` differs from the accounts post-root
computed by the ring chain (0); no constraint of Circuit.h lines 694-732
mentions `accountsMerkleRootAfter`, so altering it does not make the
system unsatisfiable. -/
theorem claimC3_code_eval :
    circuitConstraints Ptriv cwC3 ∧
    cwC3.accountsMerkleRootAfterPacked ≠
      lastNewAccountsRoot Ptriv cwC3.accountsMerkleRootBeforePacked cwC3.ringSettlements := by
  refine ⟨?_, by decide⟩
  simp only [circuitConstraints, ringChainConstraints, ringConstraints, orderConstraints,
    subaddConstraints, leqConstraints, rateCheckerConstraints, updateFilledConstraints,
    ringBalanceConstraints, updateBalanceConstraints, hashBind, Ptriv]
  decide

/-- Claim C4: in every ring accepted by the constraint system, each order's
trading-history update satisfies `filled_after = filled_before + fillS` and
`filled_after ≤ amountS` of that order, and the Leq gadgets used for the
caps assert the comparison by pinning their `leq` wire to 1. -/
theorem claimC4_filled_update :
    ∀ (P : Params) (cw : CircuitW), circuitConstraints P cw →
      ∀ r ∈ cw.ringSettlements,
        (r.updateFilledA.filledAfter = r.updateFilledA.filledBefore + r.fillS_A ∧
         r.updateFilledA.filledAfter.val ≤ r.orderA.amountS.val ∧
         r.filledLeqA.leq = 1) ∧
        (r.updateFilledB.filledAfter = r.updateFilledB.filledBefore + r.fillS_B ∧
         r.updateFilledB.filledAfter.val ≤ r.orderB.amountS.val ∧
         r.filledLeqB.leq = 1) := by
  intro P cw hc r hr
  obtain ⟨-, -, -, -, hchain, -, -⟩ := hc
  obtain ⟨h', a', hring⟩ := ringChainConstraints_mem P cw.ringSettlements _ _ hchain r hr
  obtain ⟨-, -, -, -, -, -, -, -, -, -, -, -, hufA, hufB, hlA, hlB, -, -, -, -, -, -, -, -, -⟩ := hring
  obtain ⟨hA1, hA2⟩ := leq_le hlA
  obtain ⟨hB1, hB2⟩ := leq_le hlB
  exact ⟨⟨hufA.2.1.symm, hA1, hA2⟩, ⟨hufB.2.1.symm, hB1, hB2⟩⟩

/-- Claim C4 witness: the conclusion instantiated at the accepted all-zero
single-ring batch. -/
theorem claimC4_filled_update_witness :
    (w0.updateFilledA.filledAfter = w0.updateFilledA.filledBefore + w0.fillS_A ∧
     w0.updateFilledA.filledAfter.val ≤ w0.orderA.amountS.val ∧
     w0.filledLeqA.leq = 1) ∧
    (w0.updateFilledB.filledAfter = w0.updateFilledB.filledBefore + w0.fillS_B ∧
     w0.updateFilledB.filledAfter.val ≤ w0.orderB.amountS.val ∧
     w0.filledLeqB.leq = 1) :=
  claimC4_filled_update Ptriv cw0 cw0_sat w0 (List.mem_singleton.mpr rfl)

/-- Claim C5: the chunk stream hashed by SHA-256 is exactly
`tradingHistoryMerkleRootBefore.bits`, then
`tradingHistoryMerkleRootAfter.bits`, then per ring the two order-centric
spec records `(dexID:16, orderID:4, accountS_self:24,
accountB_counterparty:24, fillS_self:96, accountF_self:24, fillF_self:96)`
— and it is independent of the accounts-root wires (they are omitted). -/
theorem claimC5_public_data_layout :
    ∀ cw : CircuitW,
      circuitPublicDataBits cw =
        cw.tradingHistoryMerkleRootBeforeBits :: cw.tradingHistoryMerkleRootAfterBits ::
          cw.ringSettlements.flatMap
            (fun r => specOrderRecord r.orderA r.orderB r.fillS_A r.fillF_A ++
                      specOrderRecord r.orderB r.orderA r.fillS_B r.fillF_B) ∧
      ∀ bp bb ap ab,
        circuitPublicDataBits (setAccountsRoots cw bp bb ap ab) = circuitPublicDataBits cw := by
  intro cw
  constructor
  · rw [circuitPublicDataBits, flatMap_ringPublicData]
  · intro bp bb ap ab
    rfl

/-- Claim C6: the public-data bit stream is flattened chunk by chunk with
each chunk's bits emitted in reverse (`flattenReverse` equals
concatenation of the reversed chunks), and the 256 digest-binding
constraints `digest[255-i] = publicDataHash.bits[i]` hold exactly when the
public-input bits are the digest bits reversed. -/
theorem claimC6_flatten_and_digest_remap :
    (∀ l : List (List Bool), flattenReverse l = (l.map List.reverse).flatten) ∧
    (∀ digest pub : List Bool, digest.length = 256 → pub.length = 256 →
       (hashBind digest pub ↔ pub = digest.reverse)) := by
  constructor
  · intro l
    simpa [flattenReverse] using flattenReverse_foldl l []
  · intro digest pub hd hp
    constructor
    · intro h
      apply List.ext_getElem (by simp [hp, hd])
      intro i h1 h2
      have hi : i < 256 := hp ▸ h1
      have hbind := h ⟨i, hi⟩
      rw [List.getD_eq_getElem?_getD, List.getD_eq_getElem?_getD] at hbind
      rw [List.getElem_reverse]
      have h255 : 255 - i < digest.length := by omega
      rw [List.getElem?_eq_getElem h255, List.getElem?_eq_getElem h1] at hbind
      simp at hbind
      rw [← hbind]
      congr 1
      omega
    · intro h i
      subst h
      rw [List.getD_eq_getElem?_getD, List.getD_eq_getElem?_getD]
      have h1 : (255 - i.val) < digest.length := by omega
      have h2 : i.val < digest.reverse.length := by simp [hd]
      rw [List.getElem?_eq_getElem h1, List.getElem?_eq_getElem h2]
      simp [List.getElem_reverse]
      congr 1
      omega

set_option maxRecDepth 4000 in
/-- Claim C6 witness: a digest pattern of period 3 paired with its reversal
satisfies the 256 binding constraints, and a concrete chunk list flattens
with each chunk reversed. -/
theorem claimC6_flatten_and_digest_remap_witness :
    hashBind dW dW.reverse ∧
    flattenReverse [[true, false], [false, true, true]] = [false, true, true, true, false] :=
  ⟨(claimC6_flatten_and_digest_remap.2 dW dW.reverse (by decide) (by decide)).mpr rfl,
   (claimC6_flatten_and_digest_remap.1 [[true, false], [false, true, true]]).trans (by decide)⟩

/-- Claim C7: in every satisfying witness, each order's signature is
verified (by the pure-EdDSA verifier, under the order's public key, with
the order's `R` and `s`) against exactly the concatenation of the bit
decompositions of dexID, orderID, accountS, accountB, accountF, amountS,
amountB, amountF — and the signed message is unchanged by the `walletF`
and token wires. -/
theorem claimC7_signed_message :
    ∀ (P : Params) (o : OrderW), orderConstraints P o →
      P.eddsa o.pubKeyX o.pubKeyY o.sigRX o.sigRY o.sigS
        (bitsOf 16 o.dexID ++ bitsOf 4 o.orderID ++ bitsOf 24 o.accountS ++
         bitsOf 24 o.accountB ++ bitsOf 24 o.accountF ++ bitsOf 96 o.amountS ++
         bitsOf 96 o.amountB ++ bitsOf 96 o.amountF) ∧
      ∀ wF tS tB tF : F, sigMessage (setOrderMeta o wF tS tB tF) = sigMessage o := by
  intro P o h
  obtain ⟨-, -, -, -, -, -, -, -, -, hsig⟩ := h
  exact ⟨hsig, fun _ _ _ _ => rfl⟩

set_option maxRecDepth 4000 in
/-- Claim C7 witness: under primitives whose signature predicate measures
the message length, the zero order's constraints force the signed message
to be the 380-bit concatenation. -/
theorem claimC7_signed_message_witness :
    PmsgLen.eddsa o0.pubKeyX o0.pubKeyY o0.sigRX o0.sigRY o0.sigS
      (bitsOf 16 o0.dexID ++ bitsOf 4 o0.orderID ++ bitsOf 24 o0.accountS ++
       bitsOf 24 o0.accountB ++ bitsOf 24 o0.accountF ++ bitsOf 96 o0.amountS ++
       bitsOf 96 o0.amountB ++ bitsOf 96 o0.amountF) :=
  (claimC7_signed_message PmsgLen o0 (by
    simp only [orderConstraints, PmsgLen, Ptriv, sigMessage]
    decide)).1

set_option maxRecDepth 4000 in
/-- Claim C8 counterexample: the order constraint system accepts a witness
whose `walletF` value does not fit in 24 bits — the 24-bit boolean
decomposition of `walletF` is NOT constrained (the call
`walletF.generate_r1cs_constraints(true)` on Circuit.h line 238 is
commented out), contrary to the claim's parenthetical. -/
theorem claimC8_counterexample :
    orderConstraints Ptriv oC8 ∧ ¬ oC8.walletF.val < 2 ^ 24 := by
  constructor
  · simp only [orderConstraints, Ptriv]
    decide
  · decide

/-- Claim C8 (amended): the witness generator assigns the constant 0 to
both fee-wallet pre-balances (Circuit.h lines 547 and 551); `walletF` is
allocated as a 24-bit dual variable but its boolean decomposition is not
constrained (line 238 is commented out), and shows up neither in the
signed message, nor in any order or ring constraint, nor in any
account-tree update address or leaf (so the ring constraints and both
emitted post-roots are unchanged by any `walletF` value). -/
theorem claimC8_amended :
    (∀ d : RingData,
       (ringWitnessOf d).balanceF_W_A_before = 0 ∧ (ringWitnessOf d).balanceF_W_B_before = 0) ∧
    (∀ (P : Params) (o : OrderW) (v : F),
       orderConstraints P o → orderConstraints P (setWalletF o v)) ∧
    (∀ (o : OrderW) (v : F), sigMessage (setWalletF o v) = sigMessage o) ∧
    (∀ (P : Params) (h a : F) (w : RingW) (v₁ v₂ : F), ringConstraints P h a w →
       ringConstraints P h a (ringSetWalletF w v₁ v₂) ∧
       ringNewHistoryRoot P (ringSetWalletF w v₁ v₂) = ringNewHistoryRoot P w ∧
       ringNewAccountsRoot P (ringSetWalletF w v₁ v₂) = ringNewAccountsRoot P w) :=
  ⟨fun _ => ⟨rfl, rfl⟩,
   fun _ _ _ h => h,
   fun _ _ => rfl,
   fun _ _ _ _ _ _ hc => ⟨hc, rfl, rfl⟩⟩

/-- Claim C8 (amended) witness: the amended statement instantiated at the
zero ring record, the zero order with `walletF := 5`, and the accepted
all-zero ring with both `walletF` wires replaced. -/
theorem claimC8_amended_witness :
    (ringWitnessOf d0).balanceF_W_A_before = 0 ∧
    orderConstraints Ptriv (setWalletF o0 5) ∧
    ringConstraints Ptriv 0 0 (ringSetWalletF w0 5 7) :=
  ⟨(claimC8_amended.1 d0).1,
   claimC8_amended.2.1 Ptriv o0 5 w0_sat.1,
   (claimC8_amended.2.2.2 Ptriv 0 0 w0 5 7 w0_sat).1⟩

/-- Claim C9: in every satisfying witness, each of the six balance updates
rebinds the same public-key and token wires in the before-leaf and the
after-leaf, so the updated account leaf differs from the read leaf only in
the balance component. -/
theorem claimC9_leaf_rebinding :
    ∀ (P : Params) (h a : F) (w : RingW), ringConstraints P h a w →
      ∀ i : Fin 6,
        (ringLeafBefore w i).x = (ringLeafAfter w i).x ∧
        (ringLeafBefore w i).y = (ringLeafAfter w i).y ∧
        (ringLeafBefore w i).token = (ringLeafAfter w i).token ∧
        balanceLeaf P.H4 (ringLeafAfter w i) =
          P.H4 (ringLeafBefore w i).x (ringLeafBefore w i).y (ringLeafBefore w i).token
            (ringLeafAfter w i).bal := by
  intro P h a w _ i
  fin_cases i <;> exact ⟨rfl, rfl, rfl, rfl⟩

/-- Claim C9 witness: the conclusion at the accepted all-zero ring for the
third balance update (`updateBalanceF_A`). -/
theorem claimC9_leaf_rebinding_witness :
    (ringLeafBefore w0 2).x = (ringLeafAfter w0 2).x ∧
    (ringLeafBefore w0 2).y = (ringLeafAfter w0 2).y ∧
    (ringLeafBefore w0 2).token = (ringLeafAfter w0 2).token ∧
    balanceLeaf Ptriv.H4 (ringLeafAfter w0 2) =
      Ptriv.H4 (ringLeafBefore w0 2).x (ringLeafBefore w0 2).y (ringLeafBefore w0 2).token
        (ringLeafAfter w0 2).bal :=
  claimC9_leaf_rebinding Ptriv 0 0 w0 w0_sat 2

/-- Claim C10: the accounts post-root a ring reports via
`getNewAccountsMerkleRoot()` is the post-root of the fifth balance update
`updateBalanceB_B` and is unchanged by `updateBalanceF_B`'s path witness
(order B's fee-leg update is excluded from the reported root), while in
every satisfying witness `updateBalanceF_B`'s inclusion proof is still
constrained against that same reported root. -/
theorem claimC10_accounts_root_exclusion :
    (∀ (P : Params) (h a : F) (w : RingW), ringConstraints P h a w →
       ringNewAccountsRoot P w =
         updateBalanceResult P (bitsOf 24 w.orderB.accountB) (ringLeafAfter w 4)
           w.updateBalanceB_B ∧
       merkleCompute P.node 0 (bitsOf 24 w.orderB.accountF)
           (balanceLeaf P.H4 (ringLeafBefore w 5)) w.updateBalanceF_B.proof =
         ringNewAccountsRoot P w) ∧
    (∀ (P : Params) (w : RingW) (u : UpdateBalanceW),
       ringNewAccountsRoot P (setUpdateBalanceF_B w u) = ringNewAccountsRoot P w) := by
  constructor
  · intro P h a w hc
    obtain ⟨-, -, -, -, -, -, -, -, -, -, -, -, -, -, -, -, hbal, -⟩ := hc
    obtain ⟨-, -, -, -, -, hFB⟩ := hbal
    exact ⟨rfl, hFB.2⟩
  · intro P w u
    rfl

/-- Claim C10 witness: the first part instantiated at the accepted
all-zero ring. -/
theorem claimC10_accounts_root_exclusion_witness :
    ringNewAccountsRoot Ptriv w0 =
      updateBalanceResult Ptriv (bitsOf 24 w0.orderB.accountB) (ringLeafAfter w0 4)
        w0.updateBalanceB_B ∧
    merkleCompute Ptriv.node 0 (bitsOf 24 w0.orderB.accountF)
        (balanceLeaf Ptriv.H4 (ringLeafBefore w0 5)) w0.updateBalanceF_B.proof =
      ringNewAccountsRoot Ptriv w0 :=
  claimC10_accounts_root_exclusion.1 Ptriv 0 0 w0 w0_sat
